import Mathlib

/-!
Verification of the forecast normalization, aggregation and visualization
core of the weather-analyst repository.  Numeric values are modelled as
rationals (`ℚ`), nullable samples as `Option ℚ`, fallible computations as
`Option`/`Except`.  Hourly timestamps are modelled as a calendar-date tag
plus an hour-of-day: the Python code tests `target_date in time_str` and
parses the hour from the `T`-separated part of an ISO-8601
`YYYY-MM-DDTHH:MM` string; for such strings a 10-character `YYYY-MM-DD`
date occurs as a substring exactly when it is the leading date component
(every other 10-character window contains the letter `T` or a colon), so
the membership test is modelled as equality of the date component.
-/

deriving instance DecidableEq for Except

/-- An hourly timestamp: calendar date (`YYYY-MM-DD`) and hour-of-day, as
extracted by the source from an ISO-8601 local time string. -/
structure TimeStamp where
  date : String
  hour : Nat
deriving DecidableEq, Repr

/-- Conversion factor m/s to knots (`MS_TO_KNOTS` in the source). -/
def MS_TO_KNOTS : ℚ := 1.94384

/-- The in-window test `8 <= hour <= 18` combined with the exact-date test,
from the daytime-selection loops of `process_weather_data` and
`process_marine_data`. -/
def isDaytimeFor (target : String) (t : TimeStamp) : Bool :=
  t.date == target && decide (8 ≤ t.hour) && decide (t.hour ≤ 18)

/-- The in-window test alone (`8 <= hour <= 18`), used by the weather
fallback loop. -/
def isDaytime (t : TimeStamp) : Bool :=
  decide (8 ≤ t.hour) && decide (t.hour ≤ 18)

/-- Enumeration loop `for i, time_str in enumerate(times)` collecting the
indices whose timestamp satisfies `p`; `i` is the index of the head. -/
def collectIdx (p : TimeStamp → Bool) : List TimeStamp → Nat → List Nat
  | [], _ => []
  | t :: ts, i =>
      if p t then i :: collectIdx p ts (i + 1) else collectIdx p ts (i + 1)

/-- The exact-date daytime index selection shared by
`process_weather_data` (lines 74-82) and `process_marine_data`
(lines 65-71): indices whose date matches the target and whose hour lies
in [8, 18]. -/
def daytime_indices_exact (times : List TimeStamp) (target : String) : List Nat :=
  collectIdx (isDaytimeFor target) times 0

/-- The weather fallback loop (`process_weather_data` lines 84-91): walk
the whole feed collecting in-window indices, stopping once 11 have been
collected.  `need` is the number of further samples still wanted. -/
def firstDaytime : List (Nat × TimeStamp) → Nat → List Nat
  | [], _ => []
  | p :: rest, need =>
      if isDaytime p.2 then
        if need ≤ 1 then [p.1] else p.1 :: firstDaytime rest (need - 1)
      else firstDaytime rest need

/-- Enumerate a timestamp list with indices starting at `i`. -/
def enumTimes : List TimeStamp → Nat → List (Nat × TimeStamp)
  | [], _ => []
  | t :: ts, i => (i, t) :: enumTimes ts (i + 1)

/-- The fallback index list of `process_weather_data`: first at most 11
in-window samples anywhere in the feed. -/
def fallback_daytime_indices (times : List TimeStamp) : List Nat :=
  firstDaytime (enumTimes times 0) 11

/-- The full index selection of `process_weather_data`: exact-date daytime
indices, or the fallback when none match. -/
def weather_daytime_indices (times : List TimeStamp) (today : String) : List Nat :=
  let exact := daytime_indices_exact times today
  if exact.isEmpty then fallback_daytime_indices times else exact

/-- `get_values` of `process_weather_data`:
`[values[i] for i in daytime_indices if i < len(values)]`; keeps null
samples, drops out-of-range indices. -/
def selectAt {α : Type} (values : List α) (idxs : List Nat) : List α :=
  idxs.filterMap (fun i => values.get? i)

/-- `get_values` of `process_marine_data`:
`[values[i] for i in daytime_indices if i < len(values) and values[i] is not None]`;
drops both out-of-range indices and null samples. -/
def selectAtSome (values : List (Option ℚ)) (idxs : List Nat) : List ℚ :=
  idxs.filterMap (fun i => (values.get? i).bind id)

/-- Python's `round` to an integer: round half to even. -/
def pyRound (q : ℚ) : ℤ :=
  if Int.fract q = 1 / 2 then (if 2 ∣ ⌊q⌋ then ⌊q⌋ else ⌊q⌋ + 1) else round q

/-- Python's `round(x, d)` to `d` decimal places. -/
def roundTo (d : Nat) (q : ℚ) : ℚ :=
  (pyRound (q * 10 ^ d) : ℚ) / 10 ^ d

/-- The null-tolerant knot conversion of `process_weather_data` lines
102-103: `v * MS_TO_KNOTS if v else 0` — a null (or zero, which is falsy
in Python) sample becomes the number 0. -/
def toKnots (v : Option ℚ) : ℚ :=
  match v with
  | none => 0
  | some x => if x = 0 then 0 else x * MS_TO_KNOTS

/-- Python's `max` over a nonempty list (`[]` case is never reached: the
source guards every `max(...)` with an emptiness test). -/
def listMax : List ℚ → ℚ
  | [] => 0
  | x :: xs => xs.foldl max x

/-- Python's `sum` over a list of possibly-null floats: any null operand
raises (modelled as `none`). -/
def sumOpt : List (Option ℚ) → Option ℚ
  | [] => some 0
  | x :: xs => do pure ((← x) + (← sumOpt xs))

/-- Python's `max` over a list of possibly-null floats: empty input or a
null operand raises (modelled as `none`). -/
def maxOpt : List (Option ℚ) → Option ℚ
  | [] => none
  | [x] => x
  | x :: y :: xs => do pure (max (← x) (← maxOpt (y :: xs)))

/-- Arithmetic mean of a list, 0 when empty (specification-side helper
used to state the aggregation claims). -/
def meanOrZero (l : List ℚ) : ℚ :=
  if l = [] then 0 else l.sum / l.length

/-- Specification-side mean over only the non-null samples of a window. -/
def meanNonNull (l : List (Option ℚ)) : ℚ :=
  meanOrZero l.reduceOption

/-- The `hourly` object of an Open-Meteo weather response: parallel lists
of nullable samples plus the timestamp list. -/
structure WeatherHourly where
  time : List TimeStamp
  temperature_2m : List (Option ℚ)
  relative_humidity_2m : List (Option ℚ)
  precipitation_probability : List (Option ℚ)
  precipitation : List (Option ℚ)
  weather_code : List (Option ℚ)
  visibility : List (Option ℚ)
  wind_speed_10m : List (Option ℚ)
  wind_direction_10m : List (Option ℚ)
  wind_gusts_10m : List (Option ℚ)
deriving DecidableEq, Repr

/-- The structured per-model result of `process_weather_data`; the summary
dictionary is kept as an ordered key-value list. -/
structure WeatherView where
  times : List TimeStamp
  temperature : List (Option ℚ)
  humidity : List (Option ℚ)
  precipitation_probability : List (Option ℚ)
  precipitation : List (Option ℚ)
  weather_code : List (Option ℚ)
  visibility : List (Option ℚ)
  wind_speed_knots : List ℚ
  wind_direction : List (Option ℚ)
  wind_gusts_knots : List ℚ
  summary : List (String × ℚ)
deriving DecidableEq, Repr

/-- The selected-window temperature samples of `process_weather_data`. -/
def weatherTemps (hourly : WeatherHourly) (today : String) : List (Option ℚ) :=
  selectAt hourly.temperature_2m (weather_daytime_indices hourly.time today)

/-- The selected-window precipitation-probability samples of
`process_weather_data`. -/
def weatherPrecProbs (hourly : WeatherHourly) (today : String) : List (Option ℚ) :=
  selectAt hourly.precipitation_probability (weather_daytime_indices hourly.time today)

/-- `wind_speeds_knots` of `process_weather_data`: selected window wind
samples converted null-to-zero to knots. -/
def weatherWindKnots (hourly : WeatherHourly) (today : String) : List ℚ :=
  (selectAt hourly.wind_speed_10m (weather_daytime_indices hourly.time today)).map toKnots

/-- `wind_gusts_knots` of `process_weather_data`. -/
def weatherGustKnots (hourly : WeatherHourly) (today : String) : List ℚ :=
  (selectAt hourly.wind_gusts_10m (weather_daytime_indices hourly.time today)).map toKnots

/-- The `avg_temp` summary entry of `process_weather_data`: Python's
`sum` over the nullable window raises on a null sample (`none`). -/
def avgTempOpt (hourly : WeatherHourly) (today : String) : Option ℚ :=
  if weatherTemps hourly today = [] then some 0
  else (sumOpt (weatherTemps hourly today)).map
    (fun s => roundTo 1 (s / (weatherTemps hourly today).length))

/-- The `max_precip_prob` summary entry of `process_weather_data`:
Python's `max` raises on a null sample (`none`). -/
def maxPrecProbOpt (hourly : WeatherHourly) (today : String) : Option ℚ :=
  if weatherPrecProbs hourly today = [] then some 0
  else maxOpt (weatherPrecProbs hourly today)

/-- The result dictionary built by `process_weather_data` once the
`avg_temp` and `max_precip_prob` entries have evaluated. -/
def buildWeatherView (hourly : WeatherHourly) (today : String)
    (avgTemp maxPrecProb : ℚ) : WeatherView :=
  let idxs := weather_daytime_indices hourly.time today
  { times := selectAt hourly.time idxs
    temperature := weatherTemps hourly today
    humidity := selectAt hourly.relative_humidity_2m idxs
    precipitation_probability := weatherPrecProbs hourly today
    precipitation := selectAt hourly.precipitation idxs
    weather_code := selectAt hourly.weather_code idxs
    visibility := selectAt hourly.visibility idxs
    wind_speed_knots := weatherWindKnots hourly today
    wind_direction := selectAt hourly.wind_direction_10m idxs
    wind_gusts_knots := weatherGustKnots hourly today
    summary :=
      [("avg_wind_knots",
         if weatherWindKnots hourly today = [] then 0
         else roundTo 1 ((weatherWindKnots hourly today).sum /
           (weatherWindKnots hourly today).length)),
       ("max_wind_knots",
         if weatherWindKnots hourly today = [] then 0
         else roundTo 1 (listMax (weatherWindKnots hourly today))),
       ("max_gust_knots",
         if weatherGustKnots hourly today = [] then 0
         else roundTo 1 (listMax (weatherGustKnots hourly today))),
       ("avg_temp", avgTemp),
       ("max_precip_prob", maxPrecProb)] }

/-- `process_weather_data`.  A missing `hourly` object is the `none`
input and yields the structured error; a null temperature or
precipitation-probability sample inside the selected window makes the
Python `sum`/`max` raise, modelled as the outer `none` result. -/
def process_weather_data (data : Option WeatherHourly) (today : String) :
    Option (Except String WeatherView) :=
  match data with
  | none => some (Except.error "No hourly data")
  | some hourly => do
      let avgTemp ← avgTempOpt hourly today
      let maxPrecProb ← maxPrecProbOpt hourly today
      pure (Except.ok (buildWeatherView hourly today avgTemp maxPrecProb))

/-- Dictionary lookup in a summary key-value list. -/
def summaryLookup (s : List (String × ℚ)) (key : String) : Option ℚ :=
  (s.find? (fun kv => kv.1 == key)).map Prod.snd

/-- The compass-point table of `get_direction_name` in
`open_meteo_marine.py`. -/
def compassPoints : List String := ["N", "NE", "E", "SE", "S", "SW", "W", "NW"]

/-- `get_direction_name` (`open_meteo_marine.py` lines 107-111): snap
degrees to one of 8 compass points via `round(degrees / 45) % 8`. -/
def get_direction_name (degrees : ℚ) : String :=
  compassPoints.getD (pyRound (degrees / 45) % 8).toNat "N"

/-- The `hourly` object of an Open-Meteo marine response. -/
structure MarineHourly where
  time : List TimeStamp
  wave_height : List (Option ℚ)
  wave_direction : List (Option ℚ)
  wave_period : List (Option ℚ)
  wind_wave_height : List (Option ℚ)
  swell_wave_height : List (Option ℚ)
  swell_wave_direction : List (Option ℚ)
  swell_wave_period : List (Option ℚ)
deriving DecidableEq, Repr

/-- The summary dictionary of `process_marine_data`. -/
structure MarineSummary where
  avg_wave_height_m : ℚ
  max_wave_height_m : ℚ
  avg_swell_height_m : ℚ
  max_swell_height_m : ℚ
  avg_swell_period_s : ℚ
  primary_swell_direction : String
deriving DecidableEq, Repr

/-- The structured result of `process_marine_data`. -/
structure MarineView where
  target_date : String
  times : List TimeStamp
  wave_height_m : List ℚ
  wave_direction_deg : List ℚ
  wave_period_s : List ℚ
  swell_wave_height_m : List ℚ
  swell_wave_direction_deg : List ℚ
  swell_wave_period_s : List ℚ
  wind_wave_height_m : List ℚ
  summary : MarineSummary
deriving DecidableEq, Repr

/-- The result dictionary built by `process_marine_data` when the
exact-date daytime index list is non-empty. -/
def buildMarineView (hourly : MarineHourly) (target_date : String) : MarineView :=
  let daytime_indices := daytime_indices_exact hourly.time target_date
  let wave_heights := selectAtSome hourly.wave_height daytime_indices
  let swell_heights := selectAtSome hourly.swell_wave_height daytime_indices
  let swell_periods := selectAtSome hourly.swell_wave_period daytime_indices
  let swell_directions := selectAtSome hourly.swell_wave_direction daytime_indices
  { target_date := target_date
    times := selectAt hourly.time daytime_indices
    wave_height_m := wave_heights
    wave_direction_deg := selectAtSome hourly.wave_direction daytime_indices
    wave_period_s := selectAtSome hourly.wave_period daytime_indices
    swell_wave_height_m := swell_heights
    swell_wave_direction_deg := swell_directions
    swell_wave_period_s := swell_periods
    wind_wave_height_m := selectAtSome hourly.wind_wave_height daytime_indices
    summary :=
      { avg_wave_height_m :=
          if wave_heights = [] then 0
          else roundTo 2 (wave_heights.sum / wave_heights.length)
        max_wave_height_m :=
          if wave_heights = [] then 0 else roundTo 2 (listMax wave_heights)
        avg_swell_height_m :=
          if swell_heights = [] then 0
          else roundTo 2 (swell_heights.sum / swell_heights.length)
        max_swell_height_m :=
          if swell_heights = [] then 0 else roundTo 2 (listMax swell_heights)
        avg_swell_period_s :=
          if swell_periods = [] then 0
          else roundTo 1 (swell_periods.sum / swell_periods.length)
        primary_swell_direction :=
          if swell_directions = [] then "N/A"
          else get_direction_name
            ((pyRound (swell_directions.sum / swell_directions.length) : ℤ) : ℚ) } }

/-- `process_marine_data`: no fallback — an empty exact-date daytime
index list is immediately the structured error. -/
def process_marine_data (data : Option MarineHourly) (target_date : String) :
    Except String MarineView :=
  match data with
  | none => Except.error "No hourly data"
  | some hourly =>
    if daytime_indices_exact hourly.time target_date = [] then
      Except.error ("No marine data for " ++ target_date)
    else
      Except.ok (buildMarineView hourly target_date)

/-- A station reading as consumed by `process_station_data`
(`windy_stations.py`): each field is `some v` when the corresponding key
is present with numeric value `v`.  The code's secondary `timestamp` key
fallback is folded into the single `ts` field. -/
structure Reading where
  ts : Option ℚ
  temp : Option ℚ
  wind : Option ℚ
  gust : Option ℚ
  windDir : Option ℚ
  pressure : Option ℚ
  humidity : Option ℚ
  rh : Option ℚ
deriving DecidableEq, Repr

/-- The `station_info` dictionary passed to `process_station_data`. -/
structure StationInfo where
  name : Option String
  distance_km : Option ℚ
deriving DecidableEq, Repr

/-- A station snapshot: the standardized dictionary produced by
`windy_stations.py`, with the optional-field measurement set kept as an
ordered key-value list (values may themselves be null, as Python's
`a or b` can store `None`). -/
structure StationSnapshot where
  available : Bool
  message : Option String
  station_name : Option String
  distance_km : Option ℚ
  timestamp : Option ℚ
  measurements : List (String × Option ℚ)
deriving DecidableEq, Repr

/-- The `{"available": False, "message": msg}` dictionaries built on every
failure path of `fetch_station_data` and `fetch_single_station`. -/
def unavailable_snapshot (msg : String) : StationSnapshot :=
  { available := false
    message := some msg
    station_name := none
    distance_km := none
    timestamp := none
    measurements := [] }

/-- Python's `a or b` on nullable numbers: a null or zero left operand is
falsy and yields the right operand. -/
def pyOr (a b : Option ℚ) : Option ℚ :=
  match a with
  | none => b
  | some x => if x = 0 then b else some x

/-- `process_station_data` (`windy_stations.py` lines 154-190): always
marks the snapshot `available := true` and extracts whichever
measurements the latest reading carries. -/
def process_station_data (latest : Reading) (station_info : StationInfo) :
    StationSnapshot :=
  { available := true
    message := none
    station_name := some (station_info.name.getD "Unknown")
    distance_km := some (station_info.distance_km.getD 0)
    timestamp := latest.ts
    measurements :=
      (match latest.temp with
       | some t => [("temperature_c", some t)]
       | none => []) ++
      (match latest.wind with
       | some w => [("wind_knots", some (roundTo 1 (w * MS_TO_KNOTS)))]
       | none => []) ++
      (match latest.gust with
       | some g => [("gust_knots", some (roundTo 1 (g * MS_TO_KNOTS)))]
       | none => []) ++
      (match latest.windDir with
       | some d => [("wind_direction", some d)]
       | none => []) ++
      (match latest.pressure with
       | some p => [("pressure_hpa", some p)]
       | none => []) ++
      (if latest.humidity.isSome || latest.rh.isSome then
        [("humidity", pyOr latest.humidity latest.rh)]
       else []) }

/-- `get_wind_color` (`visualizer.py` lines 23-44): Windguru-style color
for a wind speed in knots. -/
def get_wind_color (speed : ℚ) : String :=
  if speed < 5 then "#E8F5E9"
  else if speed < 10 then "#C8E6C9"
  else if speed < 15 then "#A5D6A7"
  else if speed < 20 then "#FFEB3B"
  else if speed < 25 then "#FFC107"
  else if speed < 30 then "#FF9800"
  else if speed < 35 then "#FF5722"
  else if speed < 40 then "#F44336"
  else if speed < 45 then "#E91E63"
  else "#9C27B0"

/-- The ordered wind palette of `get_wind_color`, pale green (tier 0) to
purple (tier 9, extreme). -/
def windPalette : List String :=
  ["#E8F5E9", "#C8E6C9", "#A5D6A7", "#FFEB3B", "#FFC107",
   "#FF9800", "#FF5722", "#F44336", "#E91E63", "#9C27B0"]

/-- The ascending wind thresholds of `get_wind_color`, in knots. -/
def windThresholds : List ℚ := [5, 10, 15, 20, 25, 30, 35, 40, 45]

/-- The severity index of the tier selected by `get_wind_color`: the same
branch chain, returning the palette position instead of the color. -/
def windTierIdx (speed : ℚ) : Nat :=
  if speed < 5 then 0
  else if speed < 10 then 1
  else if speed < 15 then 2
  else if speed < 20 then 3
  else if speed < 25 then 4
  else if speed < 30 then 5
  else if speed < 35 then 6
  else if speed < 40 then 7
  else if speed < 45 then 8
  else 9

/-- A rendered table cell of `_draw_data_row`: either a numeric value
drawn with its mapped background color, or the neutral gray placeholder
drawn as a dash. -/
inductive Cell where
  | value (v : ℚ) (color : String)
  | placeholder
deriving DecidableEq, Repr

/-- `_draw_data_row` (`visualizer.py` lines 286-301): one table row of
`n_hours` cells; a cell shows `values[i]` colored by `color_func` when
the index is in range and the sample is not null, and the neutral
placeholder otherwise. -/
def drawDataRow (values : List (Option ℚ)) (nHours : Nat)
    (colorFunc : ℚ → String) : List Cell :=
  (List.range nHours).map (fun i =>
    match values.get? i with
    | some (some v) => Cell.value v (colorFunc v)
    | _ => Cell.placeholder)

/-- The `"times" in data and data["times"]` probe of the visualizer: the
times list of a per-model entry, empty for an error entry (whose
dictionary has no `times` key). -/
def entryTimes : Except String WeatherView → List TimeStamp
  | Except.error _ => []
  | Except.ok v => v.times

/-- `data.get('wind_speed_knots', [])` on a per-model entry. -/
def entryWind : Except String WeatherView → List ℚ
  | Except.error _ => []
  | Except.ok v => v.wind_speed_knots

/-- `data.get('wind_gusts_knots', [])` on a per-model entry. -/
def entryGusts : Except String WeatherView → List ℚ
  | Except.error _ => []
  | Except.ok v => v.wind_gusts_knots

/-- One per-model band of the rendered table; only the wind and gust rows
(the rows the claims are about) are modelled, the remaining rows and the
marine band are pure drawing. -/
structure ModelBand where
  model : String
  windRow : List Cell
  gustRow : List Cell
deriving DecidableEq, Repr

/-- The rendered table artifact. -/
structure TableImage where
  hours : List TimeStamp
  bands : List ModelBand
deriving DecidableEq, Repr

/-- `create_windguru_table` (`visualizer.py` lines 111-135 for the guard
logic): `none` when the rendering backend is unavailable, and also when
no model entry carries a non-empty times list; otherwise the hour labels
come from the first valid model and every valid model gets a band whose
rows are drawn by `_draw_data_row` over `len(hours)` columns. -/
def create_windguru_table (backendAvailable : Bool)
    (weather_data : List (String × Except String WeatherView)) :
    Option TableImage :=
  if !backendAvailable then none
  else
    let valid_models := weather_data.filter (fun p => !(entryTimes p.2).isEmpty)
    match valid_models with
    | [] => none
    | first :: _ =>
      let hours := entryTimes first.2
      some
        { hours := hours
          bands := valid_models.map (fun p =>
            { model := p.1
              windRow :=
                drawDataRow ((entryWind p.2).map some) hours.length get_wind_color
              gustRow :=
                drawDataRow ((entryGusts p.2).map some) hours.length get_wind_color }) }

/-- The chart's hour-label search: the times of the first entry with a
non-empty times list (`create_windguru_chart` lines 313-317). -/
def firstTimes : List (String × Except String WeatherView) → List TimeStamp
  | [] => []
  | p :: rest =>
      if (entryTimes p.2).isEmpty then firstTimes rest else entryTimes p.2

/-- The rendered chart artifact: hour axis plus the per-model wind series
of panel 1 (each truncated to the hour count, as in the source). -/
structure ChartImage where
  hours : List TimeStamp
  windSeries : List (String × List ℚ)
deriving DecidableEq, Repr

/-- `create_windguru_chart` (`visualizer.py` lines 304-321 for the guard
logic): `none` when the rendering backend is unavailable, and also when
no model entry carries a non-empty times list. -/
def create_windguru_chart (backendAvailable : Bool)
    (weather_data : List (String × Except String WeatherView)) :
    Option ChartImage :=
  if !backendAvailable then none
  else
    let hours := firstTimes weather_data
    if hours.isEmpty then none
    else
      some
        { hours := hours
          windSeries := weather_data.filterMap (fun p =>
            if (entryWind p.2).isEmpty then none
            else some (p.1, (entryWind p.2).take hours.length)) }

/-- Modelled from the spec: no unit-string parser exists under `src/`;
§4.1 requires tolerating string-encoded numeric inputs by stripping
non-digit/non-decimal characters before parsing.  A character survives
the stripping when it is a digit or the decimal point. -/
def keepNumericChar (c : Char) : Bool :=
  c.isDigit || c = Char.ofNat 46

/-- Value of a digit string read in base 10. -/
def digitsToNat (cs : List Char) : Nat :=
  cs.foldl (fun n c => 10 * n + (c.toNat - 48)) 0

/-- Split a character list at decimal points. -/
def splitDot : List Char → List (List Char)
  | [] => [[]]
  | c :: cs =>
      let r := splitDot cs
      if c = Char.ofNat 46 then [] :: r
      else
        match r with
        | [] => [[c]]
        | h :: t => (c :: h) :: t

/-- Modelled from the spec: parse an already-stripped digit/point string
the way Python's `float` accepts it — one optional decimal point with at
least one digit somewhere; anything else fails. -/
def parseStripped (cs : List Char) : Option ℚ :=
  match splitDot cs with
  | [w] => if w = [] then none else some (digitsToNat w)
  | [w, f] =>
      if w = [] && f = [] then none
      else some ((digitsToNat w : ℚ) + (digitsToNat f : ℚ) / 10 ^ f.length)
  | _ => none

/-- Modelled from the spec (§4.1 UnitNormalizer, absent from `src/`):
strip non-digit/non-decimal characters, then parse; a parse that still
fails yields an absent value instead of an exception. -/
def parse_value (s : String) : Option ℚ :=
  parseStripped (s.data.filter keepNumericChar)

/-- The summary key-value list of a weather result, `[]` on error or
crash (used only to state concrete evaluations). -/
def weatherSummaryOf : Option (Except String WeatherView) → List (String × ℚ)
  | some (Except.ok v) => v.summary
  | _ => []

/-- Glue between a per-model processing result and the visualizer input
mapping: `main.py` stores the returned dictionary under the model key (a
crash would never reach the visualizer). -/
def entryOf : Option (Except String WeatherView) → Except String WeatherView
  | some e => e
  | none => Except.error "crash"

/-- The primary swell direction of a marine result, `""` on error (used
only to state concrete evaluations). -/
def marinePrimaryOf : Except String MarineView → String
  | Except.ok v => v.summary.primary_swell_direction
  | Except.error _ => ""

/-- Concrete marine feed whose only sample lies on 2025-06-01 inside the
daylight window. -/
def mhJune1 : MarineHourly :=
  { time := [⟨"2025-06-01", 10⟩]
    wave_height := [some 1]
    wave_direction := [some 180]
    wave_period := [some 4]
    wind_wave_height := [some 1]
    swell_wave_height := [some 1]
    swell_wave_direction := [some 90]
    swell_wave_period := [some 5] }

/-- Concrete weather feed with a single in-window hour on a date that
will not match the queried target. -/
def whOffDate : WeatherHourly :=
  { time := [⟨"2025-06-01", 9⟩]
    temperature_2m := [some 20]
    relative_humidity_2m := [some 50]
    precipitation_probability := [some 0]
    precipitation := [some 0]
    weather_code := [some 1]
    visibility := [some 10000]
    wind_speed_10m := [some 5]
    wind_direction_10m := [some 180]
    wind_gusts_10m := [some 7] }

/-- Concrete weather feed with a null wind-speed sample inside the
selected window (second hour). -/
def whNullWind : WeatherHourly :=
  { time := [⟨"2025-06-01", 9⟩, ⟨"2025-06-01", 10⟩]
    temperature_2m := [some 20, some 22]
    relative_humidity_2m := [some 50, some 50]
    precipitation_probability := [some 0, some 10]
    precipitation := [some 0, some 0]
    weather_code := [some 1, some 1]
    visibility := [some 10000, some 10000]
    wind_speed_10m := [some 10, none]
    wind_direction_10m := [some 180, some 180]
    wind_gusts_10m := [some 10, some 20] }

/-- Concrete weather feed chosen so that the gust average, the
temperature maximum and the precipitation-probability average differ
from every value the summary actually carries. -/
def whGustAvg : WeatherHourly :=
  { time := [⟨"2025-06-01", 9⟩, ⟨"2025-06-01", 10⟩]
    temperature_2m := [some 20, some 24]
    relative_humidity_2m := [some 50, some 50]
    precipitation_probability := [some 0, some 10]
    precipitation := [some 0, some 0]
    weather_code := [some 1, some 1]
    visibility := [some 10000, some 10000]
    wind_speed_10m := [some 5, some 5]
    wind_direction_10m := [some 180, some 180]
    wind_gusts_10m := [some 10, some 20] }

/-- Concrete weather feed whose single window hour has a null wind and
gust sample. -/
def whAllNullWind : WeatherHourly :=
  { time := [⟨"2025-06-01", 10⟩]
    temperature_2m := [some 20]
    relative_humidity_2m := [some 50]
    precipitation_probability := [some 0]
    precipitation := [some 0]
    weather_code := [some 1]
    visibility := [some 10000]
    wind_speed_10m := [none]
    wind_direction_10m := [some 180]
    wind_gusts_10m := [none] }

/-- Concrete marine feed whose window swell directions are 0° and 90°. -/
def mhSwell : MarineHourly :=
  { time := [⟨"2025-06-01", 9⟩, ⟨"2025-06-01", 10⟩]
    wave_height := [some 1, some 1]
    wave_direction := [some 180, some 180]
    wave_period := [some 4, some 4]
    wind_wave_height := [some 1, some 1]
    swell_wave_height := [some 1, some 1]
    swell_wave_direction := [some 0, some 90]
    swell_wave_period := [some 5, some 5] }

/-- A station reading carrying no recognized measurement keys. -/
def emptyReading : Reading :=
  { ts := none, temp := none, wind := none, gust := none,
    windDir := none, pressure := none, humidity := none, rh := none }

theorem collectIdx_le {p : TimeStamp → Bool} :
    ∀ (ts : List TimeStamp) (s : Nat), ∀ j ∈ collectIdx p ts s, s ≤ j
  | [], s => by simp [collectIdx]
  | t :: ts, s => by
    intro j hj
    simp only [collectIdx] at hj
    by_cases hp : p t
    · rw [if_pos hp] at hj
      rcases List.mem_cons.mp hj with h | h
      · omega
      · have := collectIdx_le ts (s + 1) j h
        omega
    · rw [if_neg hp] at hj
      have := collectIdx_le ts (s + 1) j hj
      omega

theorem collectIdx_sorted {p : TimeStamp → Bool} :
    ∀ (ts : List TimeStamp) (s : Nat), (collectIdx p ts s).Pairwise (· < ·)
  | [], s => by simp [collectIdx]
  | t :: ts, s => by
    simp only [collectIdx]
    by_cases hp : p t
    · rw [if_pos hp]
      refine List.Pairwise.cons ?_ (collectIdx_sorted ts (s + 1))
      intro j hj
      have := collectIdx_le ts (s + 1) j hj
      omega
    · rw [if_neg hp]
      exact collectIdx_sorted ts (s + 1)

theorem collectIdx_mem {p : TimeStamp → Bool} :
    ∀ (ts : List TimeStamp) (s j : Nat),
      j ∈ collectIdx p ts s ↔
        s ≤ j ∧ ∃ t, ts.get? (j - s) = some t ∧ p t = true
  | [], s, j => by simp [collectIdx]
  | t :: ts, s, j => by
    simp only [collectIdx]
    by_cases hp : p t
    · rw [if_pos hp]
      simp only [List.mem_cons]
      constructor
      · rintro (rfl | h)
        · exact ⟨le_refl _, t, by simp, hp⟩
        · obtain ⟨hs, u, hu, hpu⟩ := (collectIdx_mem ts (s + 1) j).mp h
          refine ⟨by omega, u, ?_, hpu⟩
          have hidx : j - s = (j - (s + 1)) + 1 := by omega
          rw [hidx]
          simpa using hu
      · rintro ⟨hs, u, hu, hpu⟩
        rcases Nat.eq_or_lt_of_le hs with rfl | hlt
        · exact Or.inl rfl
        · refine Or.inr ((collectIdx_mem ts (s + 1) j).mpr ⟨by omega, u, ?_, hpu⟩)
          have hidx : j - s = (j - (s + 1)) + 1 := by omega
          rw [hidx] at hu
          simpa using hu
    · rw [if_neg hp]
      constructor
      · intro h
        obtain ⟨hs, u, hu, hpu⟩ := (collectIdx_mem ts (s + 1) j).mp h
        refine ⟨by omega, u, ?_, hpu⟩
        have hidx : j - s = (j - (s + 1)) + 1 := by omega
        rw [hidx]
        simpa using hu
      · rintro ⟨hs, u, hu, hpu⟩
        rcases Nat.eq_or_lt_of_le hs with rfl | hlt
        · simp only [Nat.sub_self, List.get?] at hu
          cases hu
          exact absurd hpu (by simpa using hp)
        · refine (collectIdx_mem ts (s + 1) j).mpr ⟨by omega, u, ?_, hpu⟩
          have hidx : j - s = (j - (s + 1)) + 1 := by omega
          rw [hidx] at hu
          simpa using hu

theorem process_marine_ok {mh : MarineHourly} {target : String} {v : MarineView}
    (h : process_marine_data (some mh) target = Except.ok v) :
    daytime_indices_exact mh.time target ≠ [] ∧ v = buildMarineView mh target := by
  simp only [process_marine_data] at h
  split at h
  · cases h
  · exact ⟨by assumption, (Except.ok.injEq _ _).mp h |>.symm⟩

theorem process_weather_ok {wh : WeatherHourly} {today : String} {r : Except String WeatherView}
    (h : process_weather_data (some wh) today = some r) :
    ∃ a b, avgTempOpt wh today = some a ∧ maxPrecProbOpt wh today = some b ∧
      r = Except.ok (buildWeatherView wh today a b) := by
  simp only [process_weather_data] at h
  cases ha : avgTempOpt wh today with
  | none => rw [ha] at h; cases h
  | some a =>
    rw [ha] at h
    cases hb : maxPrecProbOpt wh today with
    | none => rw [hb] at h; simp at h
    | some b =>
      rw [hb] at h
      simp at h
      exact ⟨a, b, rfl, rfl, h.symm⟩

theorem selectAtSome_eq_reduceOption (values : List (Option ℚ)) (idxs : List Nat) :
    selectAtSome values idxs = (selectAt values idxs).reduceOption := by
  simp only [selectAtSome, selectAt, List.reduceOption, List.filterMap_filterMap]

theorem pyRound_abs_le (q : ℚ) : |(pyRound q : ℚ) - q| ≤ 1 / 2 := by
  unfold pyRound
  by_cases h : Int.fract q = 1 / 2
  · have hf : q - (⌊q⌋ : ℚ) = 1 / 2 := by rw [Int.self_sub_floor]; exact h
    rw [if_pos h]
    split_ifs with hpar <;>
      (rw [abs_le]; constructor <;> (push_cast; linarith))
  · rw [if_neg h]
    have hr := abs_sub_round q
    rw [abs_sub_comm] at hr
    exact hr

theorem pyRound_eq_of_abs_lt {n : ℤ} {x : ℚ} (h : |x - (n : ℚ)| < 1 / 2) :
    pyRound x = n := by
  have hfr : Int.fract x ≠ 1 / 2 := by
    intro hf
    have hx : x - (⌊x⌋ : ℚ) = 1 / 2 := by rw [Int.self_sub_floor]; exact hf
    rw [abs_lt] at h
    rcases le_or_lt n ⌊x⌋ with hn | hn
    · have hc : (n : ℚ) ≤ (⌊x⌋ : ℚ) := by exact_mod_cast hn
      linarith
    · have hc : (⌊x⌋ : ℚ) + 1 ≤ (n : ℚ) := by exact_mod_cast hn
      linarith
  unfold pyRound
  rw [if_neg hfr, round_eq]
  rw [abs_lt] at h
  refine Int.floor_eq_iff.mpr ⟨by linarith, by linarith⟩

theorem roundTo_eval (d : Nat) (q : ℚ) (n : ℤ)
    (h1 : -(1 / 2) < q * 10 ^ d - (n : ℚ)) (h2 : q * 10 ^ d - (n : ℚ) < 1 / 2) :
    roundTo d q = (n : ℚ) / 10 ^ d := by
  rw [roundTo, pyRound_eq_of_abs_lt (abs_lt.mpr ⟨h1, h2⟩)]

theorem pyRound_div_45 (q : ℚ) :
    pyRound ((pyRound q : ℚ) / 45) = pyRound (q / 45) := by
  by_cases h : Int.fract (q / 45) = 1 / 2
  · have hm : q / 45 - (⌊q / 45⌋ : ℚ) = 1 / 2 := by rw [Int.self_sub_floor]; exact h
    set m := ⌊q / 45⌋ with hmdef
    have hq : q = 45 * (m : ℚ) + 45 / 2 := by
      have h45 : q / 45 * 45 = q := by field_simp
      nlinarith [hm]
    have hfloor : ⌊q⌋ = 45 * m + 22 := by
      refine Int.floor_eq_iff.mpr ⟨?_, ?_⟩ <;> (push_cast; rw [hq]) <;> linarith
    have hfr : Int.fract q = 1 / 2 := by
      rw [← Int.self_sub_floor, hfloor, hq]
      push_cast
      ring
    have hRHS : pyRound (q / 45) = if 2 ∣ m then m else m + 1 := by
      simp only [pyRound]
      rw [if_pos h, ← hmdef]
    have hLHS : pyRound q = if 2 ∣ (45 * m + 22) then 45 * m + 22 else 45 * m + 22 + 1 := by
      simp only [pyRound]
      rw [if_pos hfr, hfloor]
    by_cases hpar : 2 ∣ m
    · have hpar' : 2 ∣ 45 * m + 22 := by omega
      rw [hLHS, if_pos hpar', hRHS, if_pos hpar]
      apply pyRound_eq_of_abs_lt
      have he : ((45 * m + 22 : ℤ) : ℚ) / 45 - (m : ℚ) = 22 / 45 := by
        push_cast
        ring
      rw [he]
      rw [abs_of_pos (by norm_num : (0 : ℚ) < 22 / 45)]
      norm_num
    · have hpar' : ¬ 2 ∣ 45 * m + 22 := by omega
      rw [hLHS, if_neg hpar', hRHS, if_neg hpar]
      apply pyRound_eq_of_abs_lt
      have he : ((45 * m + 22 + 1 : ℤ) : ℚ) / 45 - ((m + 1 : ℤ) : ℚ) = -(22 / 45) := by
        push_cast
        ring
      rw [he, abs_neg]
      rw [abs_of_pos (by norm_num : (0 : ℚ) < 22 / 45)]
      norm_num
  · have hkr : pyRound (q / 45) = round (q / 45) := by
      simp only [pyRound]
      rw [if_neg h]
    set k := round (q / 45) with hkdef
    have hkfl : (k : ℚ) = (⌊q / 45 + 1 / 2⌋ : ℚ) := by
      rw [hkdef, round_eq]
    have hub : q / 45 - (k : ℚ) < 1 / 2 := by
      have hfl := Int.lt_floor_add_one (q / 45 + 1 / 2)
      rw [← hkfl] at hfl
      linarith
    have hge : -(1 / 2) ≤ q / 45 - (k : ℚ) := by
      have hfl := Int.floor_le (q / 45 + 1 / 2)
      rw [← hkfl] at hfl
      linarith
    have hne : q / 45 - (k : ℚ) ≠ -(1 / 2) := by
      intro heq
      apply h
      have hfl : ⌊q / 45⌋ = k - 1 := by
        refine Int.floor_eq_iff.mpr ⟨?_, ?_⟩ <;> (push_cast; linarith)
      rw [← Int.self_sub_floor, hfl]
      push_cast
      linarith
    have hk1 : |q / 45 - (k : ℚ)| < 1 / 2 := by
      rw [abs_lt]
      exact ⟨lt_of_le_of_ne hge (Ne.symm hne), hub⟩
    rw [hkr]
    apply pyRound_eq_of_abs_lt
    have hA := pyRound_abs_le q
    have h45 : |q - 45 * (k : ℚ)| < 45 / 2 := by
      have he : q - 45 * (k : ℚ) = 45 * (q / 45 - (k : ℚ)) := by ring
      rw [he, abs_mul, abs_of_pos (by norm_num : (0 : ℚ) < 45)]
      nlinarith [hk1, abs_nonneg (q / 45 - (k : ℚ))]
    have hint : |(pyRound q : ℚ) - 45 * (k : ℚ)| < 23 := by
      calc |(pyRound q : ℚ) - 45 * (k : ℚ)|
          ≤ |(pyRound q : ℚ) - q| + |q - 45 * (k : ℚ)| := abs_sub_le _ _ _
        _ < 23 := by linarith
    have hint' : |pyRound q - 45 * k| ≤ 22 := by
      have hz : |pyRound q - 45 * k| < 23 := by
        have : ((|pyRound q - 45 * k| : ℤ) : ℚ) < 23 := by
          push_cast
          exact hint
        exact_mod_cast this
      omega
    have h22 : |(pyRound q : ℚ) - 45 * (k : ℚ)| ≤ 22 := by
      have : ((|pyRound q - 45 * k| : ℤ) : ℚ) ≤ 22 := by exact_mod_cast hint'
      push_cast at this
      exact this
    have he : (pyRound q : ℚ) / 45 - (k : ℚ) = ((pyRound q : ℚ) - 45 * (k : ℚ)) / 45 := by
      ring
    rw [he, abs_div, abs_of_pos (by norm_num : (0 : ℚ) < 45)]
    rw [div_lt_iff₀ (by norm_num : (0 : ℚ) < 45)]
    calc |(pyRound q : ℚ) - 45 * (k : ℚ)| ≤ 22 := h22
      _ < 1 / 2 * 45 := by norm_num

/-- C1: for every hourly series and every target date, the exact-date
window selector returns exactly the indices whose timestamp's calendar
date matches the target and whose hour-of-day lies in [8, 18] inclusive,
in their original chronological order (the index list is strictly
increasing). -/
theorem C1_window_selector (times : List TimeStamp) (target : String) :
    (∀ i : Nat, i ∈ daytime_indices_exact times target ↔
        ∃ t, times.get? i = some t ∧ t.date = target ∧ 8 ≤ t.hour ∧ t.hour ≤ 18)
    ∧ (daytime_indices_exact times target).Pairwise (· < ·) := by
  constructor
  · intro i
    rw [daytime_indices_exact, collectIdx_mem]
    constructor
    · rintro ⟨-, t, ht, hp⟩
      rw [Nat.sub_zero] at ht
      have hp' : (t.date = target ∧ 8 ≤ t.hour) ∧ t.hour ≤ 18 := by
        simpa [isDaytimeFor] using hp
      exact ⟨t, ht, hp'.1.1, hp'.1.2, hp'.2⟩
    · rintro ⟨t, ht, hd, h8, h18⟩
      exact ⟨Nat.zero_le i, t, by rw [Nat.sub_zero]; exact ht,
        by simp [isDaytimeFor, hd, h8, h18]⟩
  · exact collectIdx_sorted times 0

/-- C2 counterexample: the marine feed `mhJune1` has zero timestamps on
the queried date 2025-06-02, its in-window fallback candidates are
non-empty (index 0), yet `process_marine_data` reports the series as
erroneous instead of falling back — the fallback policy does not hold
for the marine series. -/
theorem C2_counterexample :
    daytime_indices_exact mhJune1.time "2025-06-02" = []
    ∧ fallback_daytime_indices mhJune1.time = [0]
    ∧ process_marine_data (some mhJune1) "2025-06-02" =
        Except.error "No marine data for 2025-06-02" := by
  refine ⟨by decide, by decide, by decide⟩

/-- C2 amended: only the weather series falls back to the first at most
11 in-window samples when zero timestamps match the exact date, and the
weather series is never reported erroneous (even when the fallback is
also empty); the marine series has no fallback at all — zero exact-date
matches is immediately the "No marine data for date" error. -/
theorem C2_fallback_behavior :
    (∀ (wh : WeatherHourly) (today : String),
        daytime_indices_exact wh.time today = [] →
        weather_daytime_indices wh.time today = fallback_daytime_indices wh.time)
    ∧ (∀ (mh : MarineHourly) (target : String),
        daytime_indices_exact mh.time target = [] →
        process_marine_data (some mh) target =
          Except.error ("No marine data for " ++ target))
    ∧ (∀ (wh : WeatherHourly) (today : String) (r : Except String WeatherView),
        process_weather_data (some wh) today = some r →
        ∃ v, r = Except.ok v) := by
  refine ⟨?_, ?_, ?_⟩
  · intro wh today h
    simp [weather_daytime_indices, h]
  · intro mh target h
    simp [process_marine_data, h]
  · intro wh today r h
    obtain ⟨a, b, -, -, hr⟩ := process_weather_ok h
    exact ⟨_, hr⟩

theorem C2_fallback_behavior_witness :
    weather_daytime_indices whOffDate.time "2025-06-02" =
        fallback_daytime_indices whOffDate.time
    ∧ process_marine_data (some mhJune1) "2025-06-02" =
        Except.error ("No marine data for " ++ "2025-06-02")
    ∧ ∃ v, (Except.ok (buildWeatherView whOffDate "2025-06-02" 20 0) :
        Except String WeatherView) = Except.ok v :=
  ⟨C2_fallback_behavior.1 whOffDate "2025-06-02" (by decide),
   C2_fallback_behavior.2.1 mhJune1 "2025-06-02" (by decide),
   C2_fallback_behavior.2.2 whOffDate "2025-06-02" _ (by
    have ht : weatherTemps whOffDate "2025-06-02" = [some 20] := by decide
    have hp : weatherPrecProbs whOffDate "2025-06-02" = [some 0] := by decide
    have h1 : avgTempOpt whOffDate "2025-06-02" = some 20 := by
      rw [avgTempOpt, ht]
      norm_num [sumOpt]
      rw [roundTo_eval 1 20 200 (by norm_num) (by norm_num)]
      norm_num
    have h2 : maxPrecProbOpt whOffDate "2025-06-02" = some 0 := by
      rw [maxPrecProbOpt, hp]
      norm_num [maxOpt]
    rw [process_weather_data]
    rw [h1, h2]
    rfl)⟩

theorem roundTo_zero (d : Nat) : roundTo d 0 = 0 := by
  rw [roundTo]
  rw [pyRound_eq_of_abs_lt (n := 0) (by simp)]
  simp

theorem roundTo_meanOrZero (d : Nat) (l : List ℚ) :
    (if l = [] then 0 else roundTo d (l.sum / l.length)) =
      roundTo d (meanOrZero l) := by
  by_cases h : l = []
  · simp [h, meanOrZero, roundTo_zero]
  · simp [h, meanOrZero]

theorem sumOpt_map_some : ∀ l : List ℚ, sumOpt (l.map some) = some l.sum
  | [] => by simp [sumOpt]
  | x :: xs => by
    simp [sumOpt, sumOpt_map_some xs]

/-- C3 counterexample: in the weather feed `whNullWind` the second window
wind sample is null; the code turns it into 0 knots and divides by the
full window size, producing the average 9.7, while the mean over only
the non-null samples is 19.4 — so the wind average is not the mean over
non-null samples. -/
theorem C3_counterexample :
    summaryLookup (weatherSummaryOf (process_weather_data (some whNullWind) "2025-06-01"))
        "avg_wind_knots" = some (97 / 10)
    ∧ roundTo 1 (meanNonNull ((selectAt whNullWind.wind_speed_10m
        (weather_daytime_indices whNullWind.time "2025-06-01")).map
          (Option.map (fun x => x * MS_TO_KNOTS)))) = 97 / 5
    ∧ (97 / 10 : ℚ) ≠ 97 / 5 := by
  have h1 : avgTempOpt whNullWind "2025-06-01" = some 21 := by
    have ht : weatherTemps whNullWind "2025-06-01" = [some 20, some 22] := by decide
    rw [avgTempOpt, ht, if_neg (by simp)]
    norm_num [sumOpt]
    rw [roundTo_eval 1 21 210 (by norm_num) (by norm_num)]
    norm_num
  have h2 : maxPrecProbOpt whNullWind "2025-06-01" = some 10 := by
    have hp : weatherPrecProbs whNullWind "2025-06-01" = [some 0, some 10] := by decide
    rw [maxPrecProbOpt, hp, if_neg (by simp)]
    norm_num [maxOpt, max_def]
  have hproc : process_weather_data (some whNullWind) "2025-06-01" =
      some (Except.ok (buildWeatherView whNullWind "2025-06-01" 21 10)) := by
    rw [process_weather_data, h1, h2]
    rfl
  have hwdi : weather_daytime_indices whNullWind.time "2025-06-01" = [0, 1] := by decide
  have hsel : selectAt whNullWind.wind_speed_10m [0, 1] = [some 10, none] := by decide
  have hwk : weatherWindKnots whNullWind "2025-06-01" = [12149 / 625, 0] := by
    rw [weatherWindKnots, hwdi, hsel]
    norm_num [toKnots, MS_TO_KNOTS]
  refine ⟨?_, ?_, by norm_num⟩
  · rw [hproc]
    simp only [weatherSummaryOf, buildWeatherView, summaryLookup, List.find?, hwk]
    rw [if_neg (show ¬([(12149 : ℚ)/625, 0] = []) by simp)]
    simp only [beq_self_eq_true, Option.map_some]
    have harg : ([(12149 : ℚ)/625, 0].sum /
        (([(12149 : ℚ)/625, 0].length : ℕ) : ℚ)) = 12149 / 1250 := by
      norm_num
    rw [harg, roundTo_eval 1 (12149 / 1250) 97 (by norm_num) (by norm_num)]
    norm_num
  · rw [hwdi, hsel]
    have hmean : meanNonNull (List.map (Option.map fun x => x * MS_TO_KNOTS)
        [some 10, none]) = 12149 / 625 := by
      simp [meanNonNull, List.reduceOption, meanOrZero]
      norm_num [MS_TO_KNOTS]
    rw [hmean]
    rw [roundTo_eval 1 (12149 / 625) 194 (by norm_num) (by norm_num)]
    norm_num

theorem whOffDate_process_eval :
    process_weather_data (some whOffDate) "2025-06-02" =
      some (Except.ok (buildWeatherView whOffDate "2025-06-02" 20 0)) := by
  have ht : weatherTemps whOffDate "2025-06-02" = [some 20] := by decide
  have hp : weatherPrecProbs whOffDate "2025-06-02" = [some 0] := by decide
  have h1 : avgTempOpt whOffDate "2025-06-02" = some 20 := by
    rw [avgTempOpt, ht, if_neg (by simp)]
    norm_num [sumOpt]
    rw [roundTo_eval 1 20 200 (by norm_num) (by norm_num)]
    norm_num
  have h2 : maxPrecProbOpt whOffDate "2025-06-02" = some 0 := by
    rw [maxPrecProbOpt, hp, if_neg (by simp)]
    norm_num [maxOpt]
  rw [process_weather_data, h1, h2]
  rfl

/-- C3 amended: the marine averages (wave height, swell height, swell
period) are means over only the non-null window samples; the weather
wind average treats null samples as 0 knots and divides by the full
window count (`meanOrZero` over the null-to-zero list), and the weather
temperature average is the plain mean of the window samples and is only
defined when none of them is null (a null makes the Python `sum`
raise). -/
theorem C3_window_means :
    (∀ (mh : MarineHourly) (target : String) (v : MarineView),
        process_marine_data (some mh) target = Except.ok v →
        v.summary.avg_wave_height_m =
            roundTo 2 (meanNonNull (selectAt mh.wave_height
              (daytime_indices_exact mh.time target)))
        ∧ v.summary.avg_swell_height_m =
            roundTo 2 (meanNonNull (selectAt mh.swell_wave_height
              (daytime_indices_exact mh.time target)))
        ∧ v.summary.avg_swell_period_s =
            roundTo 1 (meanNonNull (selectAt mh.swell_wave_period
              (daytime_indices_exact mh.time target))))
    ∧ (∀ (wh : WeatherHourly) (today : String) (r : WeatherView),
        process_weather_data (some wh) today = some (Except.ok r) →
        summaryLookup r.summary "avg_wind_knots" =
          some (roundTo 1 (meanOrZero (weatherWindKnots wh today))))
    ∧ (∀ (wh : WeatherHourly) (today : String) (ts : List ℚ),
        weatherTemps wh today = ts.map some →
        avgTempOpt wh today = some (roundTo 1 (meanOrZero ts))) := by
  refine ⟨?_, ?_, ?_⟩
  · intro mh target v h
    obtain ⟨hne, hv⟩ := process_marine_ok h
    subst hv
    simp only [buildMarineView]
    refine ⟨?_, ?_, ?_⟩ <;>
      (rw [roundTo_meanOrZero]; simp only [meanNonNull];
       rw [← selectAtSome_eq_reduceOption])
  · intro wh today r h
    obtain ⟨a, b, ha, hb, hr⟩ := process_weather_ok h
    have hr' : r = buildWeatherView wh today a b := by
      exact (Except.ok.injEq _ _).mp hr
    subst hr'
    simp only [buildWeatherView, summaryLookup, List.find?, beq_self_eq_true,
      Option.map_some]
    rw [roundTo_meanOrZero]
    rfl
  · intro wh today ts h
    rw [avgTempOpt, h]
    cases ts with
    | nil => simp [meanOrZero, roundTo_zero]
    | cons x xs =>
      rw [if_neg (by simp)]
      rw [sumOpt_map_some]
      simp only [Option.map_some']
      rw [List.length_map]
      rw [meanOrZero, if_neg (by simp)]

theorem C3_window_means_witness :
    ((buildMarineView mhJune1 "2025-06-01").summary.avg_wave_height_m =
        roundTo 2 (meanNonNull (selectAt mhJune1.wave_height
          (daytime_indices_exact mhJune1.time "2025-06-01")))
      ∧ (buildMarineView mhJune1 "2025-06-01").summary.avg_swell_height_m =
        roundTo 2 (meanNonNull (selectAt mhJune1.swell_wave_height
          (daytime_indices_exact mhJune1.time "2025-06-01")))
      ∧ (buildMarineView mhJune1 "2025-06-01").summary.avg_swell_period_s =
        roundTo 1 (meanNonNull (selectAt mhJune1.swell_wave_period
          (daytime_indices_exact mhJune1.time "2025-06-01"))))
    ∧ summaryLookup (buildWeatherView whOffDate "2025-06-02" 20 0).summary
        "avg_wind_knots" =
        some (roundTo 1 (meanOrZero (weatherWindKnots whOffDate "2025-06-02")))
    ∧ avgTempOpt whOffDate "2025-06-02" = some (roundTo 1 (meanOrZero [20])) :=
  ⟨C3_window_means.1 mhJune1 "2025-06-01" (buildMarineView mhJune1 "2025-06-01")
      (by rw [process_marine_data, if_neg (by decide)]),
   C3_window_means.2.1 whOffDate "2025-06-02"
      (buildWeatherView whOffDate "2025-06-02" 20 0) whOffDate_process_eval,
   C3_window_means.2.2 whOffDate "2025-06-02" [20] (by decide)⟩

/-- C4 counterexample: on the feed `whGustAvg` the summary carries only
the five values avg wind 9.7, max wind 9.7, max gust 38.9, avg temp 22
and max precipitation probability 10; the gust average (29.2), the
temperature maximum (24) and the precipitation-probability average (5)
appear nowhere in it, so the summary does not contain both avg and max
of all four parameters. -/
theorem C4_counterexample :
    (weatherSummaryOf (process_weather_data (some whGustAvg) "2025-06-01")).map
        Prod.snd = [97 / 10, 97 / 10, 389 / 10, 22, 10]
    ∧ roundTo 1 (meanOrZero (weatherGustKnots whGustAvg "2025-06-01")) = 146 / 5
    ∧ listMax [(20 : ℚ), 24] = 24
    ∧ meanOrZero [(0 : ℚ), 10] = 5
    ∧ (146 / 5 : ℚ) ∉ [(97 : ℚ) / 10, 97 / 10, 389 / 10, 22, 10]
    ∧ (24 : ℚ) ∉ [(97 : ℚ) / 10, 97 / 10, 389 / 10, 22, 10]
    ∧ (5 : ℚ) ∉ [(97 : ℚ) / 10, 97 / 10, 389 / 10, 22, 10] := by
  have h1 : avgTempOpt whGustAvg "2025-06-01" = some 22 := by
    have ht : weatherTemps whGustAvg "2025-06-01" = [some 20, some 24] := by decide
    rw [avgTempOpt, ht, if_neg (by simp)]
    norm_num [sumOpt]
    rw [roundTo_eval 1 22 220 (by norm_num) (by norm_num)]
    norm_num
  have h2 : maxPrecProbOpt whGustAvg "2025-06-01" = some 10 := by
    have hp : weatherPrecProbs whGustAvg "2025-06-01" = [some 0, some 10] := by decide
    rw [maxPrecProbOpt, hp, if_neg (by simp)]
    norm_num [maxOpt, max_def]
  have hproc : process_weather_data (some whGustAvg) "2025-06-01" =
      some (Except.ok (buildWeatherView whGustAvg "2025-06-01" 22 10)) := by
    rw [process_weather_data, h1, h2]
    rfl
  have hwdi : weather_daytime_indices whGustAvg.time "2025-06-01" = [0, 1] := by decide
  have hselw : selectAt whGustAvg.wind_speed_10m [0, 1] = [some 5, some 5] := by decide
  have hselg : selectAt whGustAvg.wind_gusts_10m [0, 1] = [some 10, some 20] := by decide
  have hwk : weatherWindKnots whGustAvg "2025-06-01" = [12149 / 1250, 12149 / 1250] := by
    rw [weatherWindKnots, hwdi, hselw]
    norm_num [toKnots, MS_TO_KNOTS]
  have hgk : weatherGustKnots whGustAvg "2025-06-01" = [12149 / 625, 24298 / 625] := by
    rw [weatherGustKnots, hwdi, hselg]
    norm_num [toKnots, MS_TO_KNOTS]
  have hsum : (buildWeatherView whGustAvg "2025-06-01" 22 10).summary =
      [("avg_wind_knots", 97 / 10), ("max_wind_knots", 97 / 10),
       ("max_gust_knots", 389 / 10), ("avg_temp", 22), ("max_precip_prob", 10)] := by
    simp only [buildWeatherView, hwk, hgk]
    simp only [List.cons.injEq, Prod.mk.injEq, and_true, true_and]
    refine ⟨?_, ?_, ?_⟩
    · rw [if_neg (by simp)]
      have harg : ([(12149 : ℚ)/1250, 12149 / 1250].sum /
          (([(12149 : ℚ)/1250, 12149 / 1250].length : ℕ) : ℚ)) = 12149 / 1250 := by
        norm_num
      rw [harg, roundTo_eval 1 (12149 / 1250) 97 (by norm_num) (by norm_num)]
      norm_num
    · rw [if_neg (by simp)]
      have hmax : listMax [(12149 : ℚ)/1250, 12149 / 1250] = 12149 / 1250 := by
        simp [listMax]
      rw [hmax, roundTo_eval 1 (12149 / 1250) 97 (by norm_num) (by norm_num)]
      norm_num
    · rw [if_neg (by simp)]
      have hmax : listMax [(12149 : ℚ)/625, 24298 / 625] = 24298 / 625 := by
        simp [listMax]
        norm_num
      rw [hmax, roundTo_eval 1 (24298 / 625) 389 (by norm_num) (by norm_num)]
      norm_num
  refine ⟨?_, ?_, ?_, ?_, ?_, ?_, ?_⟩
  · rw [hproc]
    simp only [weatherSummaryOf]
    rw [hsum]
    rfl
  · rw [hgk]
    rw [meanOrZero, if_neg (by simp)]
    have harg : ([(12149 : ℚ)/625, 24298 / 625].sum /
        (([(12149 : ℚ)/625, 24298 / 625].length : ℕ) : ℚ)) = 36447 / 1250 := by
      norm_num
    rw [harg, roundTo_eval 1 (36447 / 1250) 292 (by norm_num) (by norm_num)]
    norm_num
  · simp [listMax]
    norm_num
  · rw [meanOrZero, if_neg (by simp)]
    norm_num
  · norm_num
  · norm_num
  · norm_num

/-- C4 amended: for every non-error per-model result the summary carries
exactly five statistics — average and maximum wind speed, maximum gust,
average temperature and maximum precipitation probability; it contains
no gust average, no temperature maximum and no precipitation-probability
average. -/
theorem C4_summary_contents :
    ∀ (wh : WeatherHourly) (today : String) (r : WeatherView),
      process_weather_data (some wh) today = some (Except.ok r) →
      r.summary.map Prod.fst =
        ["avg_wind_knots", "max_wind_knots", "max_gust_knots", "avg_temp",
         "max_precip_prob"]
      ∧ summaryLookup r.summary "avg_wind_knots" =
          some (roundTo 1 (meanOrZero (weatherWindKnots wh today)))
      ∧ summaryLookup r.summary "max_wind_knots" =
          some (if weatherWindKnots wh today = [] then 0
            else roundTo 1 (listMax (weatherWindKnots wh today)))
      ∧ summaryLookup r.summary "max_gust_knots" =
          some (if weatherGustKnots wh today = [] then 0
            else roundTo 1 (listMax (weatherGustKnots wh today))) := by
  intro wh today r h
  obtain ⟨a, b, ha, hb, hr⟩ := process_weather_ok h
  have hr' : r = buildWeatherView wh today a b := (Except.ok.injEq _ _).mp hr
  subst hr'
  refine ⟨by simp [buildWeatherView], ?_, ?_, ?_⟩
  · simp only [buildWeatherView, summaryLookup, List.find?, beq_self_eq_true,
      Option.map_some]
    rw [roundTo_meanOrZero]
    rfl
  · simp [buildWeatherView, summaryLookup, List.find?]
  · simp [buildWeatherView, summaryLookup, List.find?]

theorem C4_summary_contents_witness :
    (buildWeatherView whOffDate "2025-06-02" 20 0).summary.map Prod.fst =
        ["avg_wind_knots", "max_wind_knots", "max_gust_knots", "avg_temp",
         "max_precip_prob"]
    ∧ summaryLookup (buildWeatherView whOffDate "2025-06-02" 20 0).summary
        "avg_wind_knots" =
        some (roundTo 1 (meanOrZero (weatherWindKnots whOffDate "2025-06-02")))
    ∧ summaryLookup (buildWeatherView whOffDate "2025-06-02" 20 0).summary
        "max_wind_knots" =
        some (if weatherWindKnots whOffDate "2025-06-02" = [] then 0
          else roundTo 1 (listMax (weatherWindKnots whOffDate "2025-06-02")))
    ∧ summaryLookup (buildWeatherView whOffDate "2025-06-02" 20 0).summary
        "max_gust_knots" =
        some (if weatherGustKnots whOffDate "2025-06-02" = [] then 0
          else roundTo 1 (listMax (weatherGustKnots whOffDate "2025-06-02"))) :=
  C4_summary_contents whOffDate "2025-06-02"
    (buildWeatherView whOffDate "2025-06-02" 20 0) whOffDate_process_eval

/-- C5 counterexample: the single window wind sample of `whAllNullWind`
is null, the pipeline converts it to the number 0, and the rendered
table's wind row shows a numeric 0 cell (colored as calm wind), not the
neutral placeholder — a null wind-speed sample does appear as 0 in the
table. -/
theorem C5_counterexample :
    selectAt whAllNullWind.wind_speed_10m
        (weather_daytime_indices whAllNullWind.time "2025-06-01") = [none]
    ∧ weatherWindKnots whAllNullWind "2025-06-01" = [0]
    ∧ (create_windguru_table true
        [("icon_seamless",
          Except.ok (buildWeatherView whAllNullWind "2025-06-01" 20 0))]).map
          (fun img => img.bands.map ModelBand.windRow)
        = some [[Cell.value 0 "#E8F5E9"]] := by
  refine ⟨by decide, by decide, by decide⟩

/-- C5 amended: `_draw_data_row` renders a null sample or an
out-of-range hour as the neutral placeholder cell and an available
sample as its numeric value with its mapped color; however the upstream
knot conversion has already turned null wind/gust samples into the
number 0, so those reach the renderer as the value 0, not as null. -/
theorem C5_missing_cells :
    (∀ (values : List (Option ℚ)) (n : Nat) (cf : ℚ → String) (i : Nat),
        i < n → values.get? i = some none →
        (drawDataRow values n cf).get? i = some Cell.placeholder)
    ∧ (∀ (values : List (Option ℚ)) (n : Nat) (cf : ℚ → String) (i : Nat),
        i < n → values.length ≤ i →
        (drawDataRow values n cf).get? i = some Cell.placeholder)
    ∧ (∀ (values : List (Option ℚ)) (n : Nat) (cf : ℚ → String) (i : Nat) (v : ℚ),
        i < n → values.get? i = some (some v) →
        (drawDataRow values n cf).get? i = some (Cell.value v (cf v)))
    ∧ toKnots none = 0 := by
  refine ⟨?_, ?_, ?_, rfl⟩
  · intro values n cf i hin hv
    rw [List.get?_eq_getElem?] at hv
    rw [drawDataRow, List.get?_eq_getElem?, List.getElem?_map, List.getElem?_range hin]
    simp [hv]
  · intro values n cf i hin hlen
    have hnone : values[i]? = none := by
      rw [← List.get?_eq_getElem?]
      exact List.get?_eq_none.mpr hlen
    rw [drawDataRow, List.get?_eq_getElem?, List.getElem?_map, List.getElem?_range hin]
    simp [hnone]
  · intro values n cf i v hin hv
    rw [List.get?_eq_getElem?] at hv
    rw [drawDataRow, List.get?_eq_getElem?, List.getElem?_map, List.getElem?_range hin]
    simp [hv]

theorem C5_missing_cells_witness :
    (drawDataRow [none] 1 get_wind_color).get? 0 = some Cell.placeholder
    ∧ (drawDataRow [] 1 get_wind_color).get? 0 = some Cell.placeholder
    ∧ (drawDataRow [some 5] 1 get_wind_color).get? 0 =
        some (Cell.value 5 (get_wind_color 5)) :=
  ⟨C5_missing_cells.1 [none] 1 get_wind_color 0 (by norm_num) rfl,
   C5_missing_cells.2.1 [] 1 get_wind_color 0 (by norm_num) (by simp),
   C5_missing_cells.2.2.1 [some 5] 1 get_wind_color 0 5 (by norm_num) rfl⟩

/-- C6 counterexample: a reading that carries none of the recognized
measurement keys still yields a snapshot with `available = true` and an
empty measurement set, violating the claimed invariant that an
available snapshot carries at least one measurement. -/
theorem C6_counterexample :
    (process_station_data emptyReading ⟨none, none⟩).available = true
    ∧ (process_station_data emptyReading ⟨none, none⟩).measurements = [] := by
  refine ⟨rfl, rfl⟩

/-- C6 amended: every failure-path snapshot has `available = false`, no
measurements and a diagnostic message; `process_station_data` always
returns `available = true`, and its measurement set is empty exactly
when the latest reading carries none of the recognized keys — an
available snapshot may therefore carry zero measurements. -/
theorem C6_snapshot_invariant :
    (∀ msg : String,
        (unavailable_snapshot msg).available = false
        ∧ (unavailable_snapshot msg).measurements = []
        ∧ (unavailable_snapshot msg).message = some msg)
    ∧ (∀ (latest : Reading) (info : StationInfo),
        (process_station_data latest info).available = true
        ∧ ((process_station_data latest info).measurements = [] ↔
            latest.temp = none ∧ latest.wind = none ∧ latest.gust = none
            ∧ latest.windDir = none ∧ latest.pressure = none
            ∧ latest.humidity = none ∧ latest.rh = none)) := by
  constructor
  · intro msg
    exact ⟨rfl, rfl, rfl⟩
  · intro latest info
    refine ⟨rfl, ?_⟩
    obtain ⟨ts, temp, wind, gust, windDir, pressure, humidity, rh⟩ := latest
    cases temp <;> cases wind <;> cases gust <;> cases windDir <;>
      cases pressure <;> cases humidity <;> cases rh <;>
      simp [process_station_data]

/-- C7: the primary swell direction equals the arithmetic mean of the
window swell directions snapped by `index = round(degrees / 45) mod 8`
into the 8-point compass table — the code's intermediate rounding of the
mean to a whole degree never changes the selected compass point — and
the example window `[0°, 90°]` averages to 45° and snaps to `"NE"`. -/
theorem C7_primary_swell_direction :
    (∀ (mh : MarineHourly) (target : String) (v : MarineView),
        process_marine_data (some mh) target = Except.ok v →
        v.swell_wave_direction_deg ≠ [] →
        v.summary.primary_swell_direction =
          compassPoints.getD
            ((pyRound (v.swell_wave_direction_deg.sum /
                v.swell_wave_direction_deg.length / 45)) % 8).toNat "N")
    ∧ marinePrimaryOf (process_marine_data (some mhSwell) "2025-06-01") = "NE" := by
  constructor
  · intro mh target v h hne
    obtain ⟨hidx, hv⟩ := process_marine_ok h
    subst hv
    simp only [buildMarineView] at hne ⊢
    rw [if_neg hne]
    rw [get_direction_name, pyRound_div_45]
  · have hproc : process_marine_data (some mhSwell) "2025-06-01" =
        Except.ok (buildMarineView mhSwell "2025-06-01") := by
      rw [process_marine_data, if_neg (by decide)]
    rw [hproc]
    simp only [marinePrimaryOf, buildMarineView]
    have hsd : selectAtSome mhSwell.swell_wave_direction
        (daytime_indices_exact mhSwell.time "2025-06-01") = [0, 90] := by decide
    rw [hsd, if_neg (by simp)]
    have hmean : ([(0 : ℚ), 90].sum / (([(0 : ℚ), 90].length : ℕ) : ℚ)) = 45 := by
      norm_num
    rw [hmean]
    have hpr : pyRound (45 : ℚ) = 45 :=
      pyRound_eq_of_abs_lt (by rw [abs_lt]; constructor <;> norm_num)
    rw [hpr, get_direction_name]
    have h45 : ((45 : ℤ) : ℚ) / 45 = 1 := by norm_num
    rw [h45]
    have hp1 : pyRound (1 : ℚ) = 1 :=
      pyRound_eq_of_abs_lt (by rw [abs_lt]; constructor <;> norm_num)
    rw [hp1]
    rfl

theorem C7_primary_swell_direction_witness :
    (buildMarineView mhSwell "2025-06-01").summary.primary_swell_direction =
      compassPoints.getD
        ((pyRound ((buildMarineView mhSwell "2025-06-01").swell_wave_direction_deg.sum /
            (buildMarineView mhSwell "2025-06-01").swell_wave_direction_deg.length /
            45)) % 8).toNat "N" :=
  C7_primary_swell_direction.1 mhSwell "2025-06-01"
    (buildMarineView mhSwell "2025-06-01")
    (by rw [process_marine_data, if_neg (by decide)]) (by decide)

theorem windTierIdx_le_nine (v : ℚ) : windTierIdx v ≤ 9 := by
  rw [windTierIdx]
  split_ifs <;> omega

set_option maxHeartbeats 8000000 in
/-- C8: `get_wind_color` paints the tier selected by the severity index
`windTierIdx`; each threshold is an exclusive upper bound for its tier
(a value at or above the previous threshold and strictly below the
next selects that tier), every value at or above 45 takes the extreme
tier, `wind_tier(100) = wind_tier(45)`, `wind_tier(14.9) ≠
wind_tier(15.0)`, and the severity index is monotone non-decreasing. -/
theorem C8_wind_color_tiers :
    (∀ v : ℚ, get_wind_color v = windPalette.getD (windTierIdx v) "#9C27B0")
    ∧ (∀ v w : ℚ, v ≤ w → windTierIdx v ≤ windTierIdx w)
    ∧ (∀ v : ℚ, 45 ≤ v → get_wind_color v = get_wind_color 45)
    ∧ get_wind_color 100 = get_wind_color 45
    ∧ get_wind_color (149 / 10) ≠ get_wind_color 15
    ∧ (∀ k : Nat, k < 9 → ∀ v : ℚ,
        (∀ j, j < k → windThresholds.getD j 0 ≤ v) →
        v < windThresholds.getD k 0 →
        windTierIdx v = k) := by
  refine ⟨?_, ?_, ?_, ?_, ?_, ?_⟩
  · intro v
    rw [get_wind_color, windTierIdx]
    split_ifs <;> rfl
  · intro v w hvw
    rcases lt_or_le w 5 with h5 | h5
    · have hv5 : v < 5 := lt_of_le_of_lt hvw h5
      rw [windTierIdx, windTierIdx, if_pos hv5, if_pos h5]
    rcases lt_or_le w 10 with h10 | h10
    · have hw : windTierIdx w = 1 := by
        rw [windTierIdx, if_neg (not_lt.mpr h5), if_pos h10]
      rw [hw, windTierIdx]
      split_ifs <;> first | omega | (exfalso; linarith)
    rcases lt_or_le w 15 with h15 | h15
    · have hw : windTierIdx w = 2 := by
        rw [windTierIdx, if_neg (not_lt.mpr h5), if_neg (not_lt.mpr h10),
          if_pos h15]
      rw [hw, windTierIdx]
      split_ifs <;> first | omega | (exfalso; linarith)
    rcases lt_or_le w 20 with h20 | h20
    · have hw : windTierIdx w = 3 := by
        rw [windTierIdx, if_neg (not_lt.mpr h5), if_neg (not_lt.mpr h10),
          if_neg (not_lt.mpr h15), if_pos h20]
      rw [hw, windTierIdx]
      split_ifs <;> first | omega | (exfalso; linarith)
    rcases lt_or_le w 25 with h25 | h25
    · have hw : windTierIdx w = 4 := by
        rw [windTierIdx, if_neg (not_lt.mpr h5), if_neg (not_lt.mpr h10),
          if_neg (not_lt.mpr h15), if_neg (not_lt.mpr h20), if_pos h25]
      rw [hw, windTierIdx]
      split_ifs <;> first | omega | (exfalso; linarith)
    rcases lt_or_le w 30 with h30 | h30
    · have hw : windTierIdx w = 5 := by
        rw [windTierIdx, if_neg (not_lt.mpr h5), if_neg (not_lt.mpr h10),
          if_neg (not_lt.mpr h15), if_neg (not_lt.mpr h20),
          if_neg (not_lt.mpr h25), if_pos h30]
      rw [hw, windTierIdx]
      split_ifs <;> first | omega | (exfalso; linarith)
    rcases lt_or_le w 35 with h35 | h35
    · have hw : windTierIdx w = 6 := by
        rw [windTierIdx, if_neg (not_lt.mpr h5), if_neg (not_lt.mpr h10),
          if_neg (not_lt.mpr h15), if_neg (not_lt.mpr h20),
          if_neg (not_lt.mpr h25), if_neg (not_lt.mpr h30), if_pos h35]
      rw [hw, windTierIdx]
      split_ifs <;> first | omega | (exfalso; linarith)
    rcases lt_or_le w 40 with h40 | h40
    · have hw : windTierIdx w = 7 := by
        rw [windTierIdx, if_neg (not_lt.mpr h5), if_neg (not_lt.mpr h10),
          if_neg (not_lt.mpr h15), if_neg (not_lt.mpr h20),
          if_neg (not_lt.mpr h25), if_neg (not_lt.mpr h30),
          if_neg (not_lt.mpr h35), if_pos h40]
      rw [hw, windTierIdx]
      split_ifs <;> first | omega | (exfalso; linarith)
    rcases lt_or_le w 45 with h45 | h45
    · have hw : windTierIdx w = 8 := by
        rw [windTierIdx, if_neg (not_lt.mpr h5), if_neg (not_lt.mpr h10),
          if_neg (not_lt.mpr h15), if_neg (not_lt.mpr h20),
          if_neg (not_lt.mpr h25), if_neg (not_lt.mpr h30),
          if_neg (not_lt.mpr h35), if_neg (not_lt.mpr h40), if_pos h45]
      rw [hw, windTierIdx]
      split_ifs <;> first | omega | (exfalso; linarith)
    · have hw : windTierIdx w = 9 := by
        rw [windTierIdx, if_neg (not_lt.mpr h5), if_neg (not_lt.mpr h10),
          if_neg (not_lt.mpr h15), if_neg (not_lt.mpr h20),
          if_neg (not_lt.mpr h25), if_neg (not_lt.mpr h30),
          if_neg (not_lt.mpr h35), if_neg (not_lt.mpr h40),
          if_neg (not_lt.mpr h45)]
      rw [hw]
      exact windTierIdx_le_nine v
  · intro v hv
    have h1 : get_wind_color v = "#9C27B0" := by
      rw [get_wind_color]
      split_ifs <;> first | rfl | (exfalso; linarith)
    have h2 : get_wind_color 45 = "#9C27B0" := by
      norm_num [get_wind_color]
    rw [h1, h2]
  · norm_num [get_wind_color]
  · norm_num [get_wind_color]
    decide
  · intro k hk v hlow hv
    interval_cases k
    · simp only [windThresholds, List.getD] at hv
      norm_num at hv
      rw [windTierIdx, if_pos hv]
    · have h0 : (5 : ℚ) ≤ v := by simpa [windThresholds] using hlow 0 (by omega)
      simp only [windThresholds, List.getD] at hv
      norm_num at hv
      rw [windTierIdx]
      split_ifs <;> first | rfl | (exfalso; linarith)
    · have h0 : (10 : ℚ) ≤ v := by simpa [windThresholds] using hlow 1 (by omega)
      simp only [windThresholds, List.getD] at hv
      norm_num at hv
      rw [windTierIdx]
      split_ifs <;> first | rfl | (exfalso; linarith)
    · have h0 : (15 : ℚ) ≤ v := by simpa [windThresholds] using hlow 2 (by omega)
      simp only [windThresholds, List.getD] at hv
      norm_num at hv
      rw [windTierIdx]
      split_ifs <;> first | rfl | (exfalso; linarith)
    · have h0 : (20 : ℚ) ≤ v := by simpa [windThresholds] using hlow 3 (by omega)
      simp only [windThresholds, List.getD] at hv
      norm_num at hv
      rw [windTierIdx]
      split_ifs <;> first | rfl | (exfalso; linarith)
    · have h0 : (25 : ℚ) ≤ v := by simpa [windThresholds] using hlow 4 (by omega)
      simp only [windThresholds, List.getD] at hv
      norm_num at hv
      rw [windTierIdx]
      split_ifs <;> first | rfl | (exfalso; linarith)
    · have h0 : (30 : ℚ) ≤ v := by simpa [windThresholds] using hlow 5 (by omega)
      simp only [windThresholds, List.getD] at hv
      norm_num at hv
      rw [windTierIdx]
      split_ifs <;> first | rfl | (exfalso; linarith)
    · have h0 : (35 : ℚ) ≤ v := by simpa [windThresholds] using hlow 6 (by omega)
      simp only [windThresholds, List.getD] at hv
      norm_num at hv
      rw [windTierIdx]
      split_ifs <;> first | rfl | (exfalso; linarith)
    · have h0 : (40 : ℚ) ≤ v := by simpa [windThresholds] using hlow 7 (by omega)
      simp only [windThresholds, List.getD] at hv
      norm_num at hv
      rw [windTierIdx]
      split_ifs <;> first | rfl | (exfalso; linarith)

theorem C8_wind_color_tiers_witness :
    windTierIdx 3 ≤ windTierIdx 7
    ∧ get_wind_color 50 = get_wind_color 45
    ∧ windTierIdx 12 = 2 :=
  ⟨C8_wind_color_tiers.2.1 3 7 (by norm_num),
   C8_wind_color_tiers.2.2.1 50 (by norm_num),
   C8_wind_color_tiers.2.2.2.2.2 2 (by norm_num) 12
     (by
       intro j hj
       interval_cases j <;> norm_num [windThresholds])
     (by norm_num [windThresholds])⟩

/-- C9 (spec-modelled unit normalizer): parsing depends only on the
kept digit/decimal-point characters — so stripping non-numeric suffixes
before parsing changes nothing — with `parse("6+") = parse("P6") =
parse("6") = 6.0`, and an input that still fails to parse yields the
absent value instead of an exception. -/
theorem C9_unit_parse :
    (∀ s t : String,
        s.data.filter keepNumericChar = t.data.filter keepNumericChar →
        parse_value s = parse_value t)
    ∧ parse_value "6+" = some 6
    ∧ parse_value "P6" = some 6
    ∧ parse_value "6" = some 6
    ∧ parse_value "not-a-number" = none := by
  refine ⟨?_, ?_, ?_, ?_, ?_⟩
  · intro s t h
    rw [parse_value, parse_value, h]
  · decide
  · decide
  · decide
  · decide

theorem C9_unit_parse_witness :
    parse_value "6+" = parse_value "6" :=
  C9_unit_parse.1 "6+" "6" (by decide)

theorem firstTimes_nil :
    ∀ wd : List (String × Except String WeatherView),
      (∀ p ∈ wd, entryTimes p.2 = []) → firstTimes wd = []
  | [], _ => rfl
  | p :: rest, h => by
    rw [firstTimes]
    have hp : entryTimes p.2 = [] := h p (by simp)
    rw [hp]
    simp only [List.isEmpty_nil, if_true]
    exact firstTimes_nil rest (fun q hq => h q (by simp [hq]))

/-- C10: both renderers return `none` when the rendering backend is
unavailable and also whenever no model entry carries a non-empty times
list, so a `none` image does not distinguish the two situations. -/
theorem C10_render_none_conditions :
    (∀ wd : List (String × Except String WeatherView),
        create_windguru_table false wd = none
        ∧ create_windguru_chart false wd = none)
    ∧ (∀ wd : List (String × Except String WeatherView),
        (∀ p ∈ wd, entryTimes p.2 = []) →
        create_windguru_table true wd = none
        ∧ create_windguru_chart true wd = none) := by
  constructor
  · intro wd
    exact ⟨rfl, rfl⟩
  · intro wd h
    constructor
    · have hf : wd.filter (fun p => !(entryTimes p.2).isEmpty) = [] := by
        rw [List.filter_eq_nil_iff]
        intro p hp
        simp [h p hp]
      simp [create_windguru_table, hf]
    · have hft : firstTimes wd = [] := firstTimes_nil wd h
      simp [create_windguru_chart, hft]

theorem C10_render_none_conditions_witness :
    create_windguru_table true [("icon_eu", Except.error "boom")] = none
    ∧ create_windguru_chart true [("icon_eu", Except.error "boom")] = none :=
  C10_render_none_conditions.2 [("icon_eu", Except.error "boom")] (by decide)
